import Mathlib

/-!
Shallow embedding of the IoT device manager.

Source files:
- `src/devices.py`: `SmartDevice` base class with `SmartBulb`, `SmartThermostat`,
  `SmartCamera` subclasses, each with an `execute_command(command, **kwargs)` method.
- `src/controller.py`: `DeviceUpdate` named tuple, `filter_critical_events`,
  `calculate_average_temperature`, `storage_worker`, and the batching consumer
  loop plus reactive cooling logic inside `main`.

Modelling conventions: Python floats are embedded as `ℚ` (all constants and
arithmetic in the claims are exact), Python ints as `ℤ`, `None` as an explicit
null variant.  Keyword arguments (`**kwargs`) are a record of optional fields;
`"key" in kwargs` becomes an `Option` match.  `datetime.now()` is an explicit
`now : ℕ` parameter.  Methods that mutate `self` and return a `bool` become
functions `state → Bool × state`.
-/

namespace IoT

/-- Dynamic type of `DeviceUpdate.value` in `controller.py`: a Python float
(temperature), int (brightness / battery level) or `None`. -/
inductive Value where
  | vFloat (x : ℚ)
  | vInt (n : ℤ)
  | vNull
  deriving DecidableEq, Repr

/-- `DeviceUpdate = namedtuple("DeviceUpdate", ["device_id", "timestamp", "value"])`
(controller.py line 37). -/
structure DeviceUpdate where
  device_id : String
  timestamp : String
  value : Value
  deriving DecidableEq, Repr

/-- `TEMP_THRESHOLD = 30.0` (controller.py line 40). -/
def TEMP_THRESHOLD : ℚ := 30

/-- `COOLING_TARGET = 25.0` (controller.py line 41). -/
def COOLING_TARGET : ℚ := 25

/-! ## Device layer (`src/devices.py`) -/

/-- Mutable state of a `SmartBulb` (devices.py lines 75-99): the common
`connected` flag plus `_is_on` and `_brightness`. -/
structure BulbState where
  connected : Bool
  is_on : Bool
  brightness : ℤ
  deriving DecidableEq, Repr

/-- Mutable state of a `SmartThermostat` (devices.py lines 156-182). -/
structure ThermostatState where
  connected : Bool
  current_temp : ℚ
  target_temp : ℚ
  humidity : ℚ
  deriving DecidableEq, Repr

/-- Mutable state of a `SmartCamera` (devices.py lines 227-252);
`last_snapshot` is an optional timestamp. -/
structure CameraState where
  connected : Bool
  motion_detected : Bool
  battery_level : ℤ
  last_snapshot : Option ℕ
  deriving DecidableEq, Repr

/-- The keyword arguments that the three `execute_command` implementations look
up: `brightness`, `temperature`, `humidity`, `motion`, `battery_level`.  A
`none` field models the key being absent from `**kwargs`. -/
structure Kwargs where
  brightness : Option ℤ
  temperature : Option ℚ
  humidity : Option ℚ
  motion : Option Bool
  battery_level : Option ℤ
  deriving DecidableEq, Repr

/-- Empty `**kwargs`. -/
def Kwargs.empty : Kwargs := ⟨none, none, none, none, none⟩

namespace SmartBulb

/-- `SmartBulb._set_brightness` (devices.py lines 101-112): clamp-set the
brightness to [0, 100]. -/
def set_brightness_validated (value : ℤ) : ℤ :=
  if value < 0 then 0
  else if value > 100 then 100
  else value

/-- `SmartBulb.execute_command` (devices.py lines 114-144).  Returns the Python
return value and the state after the call. -/
def execute_command (s : BulbState) (command : String) (kw : Kwargs) :
    Bool × BulbState :=
  if command = "turn_on" then
    (true, { s with is_on := true })
  else if command = "turn_off" then
    (true, { s with is_on := false, brightness := 0 })
  else if command = "set_brightness" then
    match kw.brightness with
    | some brightness =>
        let s1 := { s with brightness := set_brightness_validated brightness }
        let s2 := if brightness > 0 then { s1 with is_on := true } else s1
        (true, s2)
    | none => (false, s)
  else
    (false, s)

end SmartBulb

namespace SmartThermostat

/-- `SmartThermostat.execute_command` (devices.py lines 184-214).  Each known
command with its argument present stores the value unconditionally. -/
def execute_command (s : ThermostatState) (command : String) (kw : Kwargs) :
    Bool × ThermostatState :=
  if command = "set_target_temp" then
    match kw.temperature with
    | some t => (true, { s with target_temp := t })
    | none => (false, s)
  else if command = "update_temp" then
    match kw.temperature with
    | some t => (true, { s with current_temp := t })
    | none => (false, s)
  else if command = "update_humidity" then
    match kw.humidity with
    | some h => (true, { s with humidity := h })
    | none => (false, s)
  else
    (false, s)

end SmartThermostat

namespace SmartCamera

/-- `SmartCamera._set_battery_level` (devices.py lines 254-265): clamp-set the
battery level to [0, 100]. -/
def set_battery_level_validated (value : ℤ) : ℤ :=
  if value < 0 then 0
  else if value > 100 then 100
  else value

/-- `SmartCamera.execute_command` (devices.py lines 267-295).  `now` stands for
`datetime.now()` used by `take_snapshot`. -/
def execute_command (now : ℕ) (s : CameraState) (command : String) (kw : Kwargs) :
    Bool × CameraState :=
  if command = "take_snapshot" then
    (true, { s with last_snapshot := some now })
  else if command = "set_motion_detected" then
    match kw.motion with
    | some m => (true, { s with motion_detected := m })
    | none => (false, s)
  else if command = "set_battery_level" then
    match kw.battery_level with
    | some v => (true, { s with battery_level := set_battery_level_validated v })
    | none => (false, s)
  else
    (false, s)

end SmartCamera

/-- A device is one of the three concrete subclasses of `SmartDevice`. -/
inductive Device where
  | bulb (s : BulbState)
  | thermostat (s : ThermostatState)
  | camera (s : CameraState)
  deriving DecidableEq, Repr

/-- `device_type` tag set in each subclass constructor. -/
def Device.device_type : Device → String
  | .bulb _ => "BULB"
  | .thermostat _ => "THERMOSTAT"
  | .camera _ => "CAMERA"

/-- Polymorphic `execute_command` dispatch over the three subclasses. -/
def Device.execute_command (now : ℕ) (d : Device) (command : String)
    (kw : Kwargs) : Bool × Device :=
  match d with
  | .bulb s =>
      let r := SmartBulb.execute_command s command kw
      (r.1, .bulb r.2)
  | .thermostat s =>
      let r := SmartThermostat.execute_command s command kw
      (r.1, .thermostat r.2)
  | .camera s =>
      let r := SmartCamera.execute_command now s command kw
      (r.1, .camera r.2)

/-! ## Controller layer (`src/controller.py`) -/

/-- `filter_critical_events` (controller.py lines 133-147): a float value
strictly above `TEMP_THRESHOLD` is critical (high temperature), an int value
strictly below 10 is critical (low battery), anything else — including a null
value — is not.  The two `isinstance` branches of the Python code are disjoint,
so they are rendered as one match. -/
def filter_critical_events (update : DeviceUpdate) : Bool :=
  match update.value with
  | Value.vFloat x => decide (x > TEMP_THRESHOLD)
  | Value.vInt n => decide (n < 10)
  | Value.vNull => false

/-- `isinstance(u.value, float)` test used by `calculate_average_temperature`. -/
def Value.isFloat : Value → Bool
  | Value.vFloat _ => true
  | _ => false

/-- The numeric payload of a float value; only ever applied to values that pass
`Value.isFloat` (the Python code accesses `update.value` directly after the
`isinstance` filter). -/
def Value.floatVal : Value → ℚ
  | Value.vFloat x => x
  | _ => 0

/-- `calculate_average_temperature` (controller.py lines 150-169): filter the
float-valued records, then `reduce` a `(count, total)` accumulator over them
starting from `(0, 0.0)`, returning `total / count` (0.0 for an empty filter
or a zero count). -/
def calculate_average_temperature (updates : List DeviceUpdate) : ℚ :=
  let thermostat_updates := updates.filter (fun u => u.value.isFloat)
  if thermostat_updates.isEmpty then 0
  else
    let p := thermostat_updates.foldl
      (fun acc u => (acc.1 + 1, acc.2 + u.value.floatVal)) ((0 : ℕ), (0 : ℚ))
    if p.1 > 0 then p.2 / (p.1 : ℚ) else 0

/-- `cooling_amount = max(5.0, current_temp - COOLING_TARGET)`
(controller.py line 240). -/
def cooling_amount (current_temp : ℚ) : ℚ :=
  max 5 (current_temp - COOLING_TARGET)

/-- `new_temp = current_temp - cooling_amount` (controller.py line 241),
before the defensive override check. -/
def cooled_temp (current_temp : ℚ) : ℚ :=
  current_temp - cooling_amount current_temp

/-- The reactive action of `main` for one critical event on the device whose
`device_id` matched (controller.py lines 235-250).  The thermostat branch
computes the cooling, applies the `new_temp >= TEMP_THRESHOLD` override, and
issues `update_temp` followed by `set_target_temp` through `execute_command`;
the camera branch only logs a warning and mutates nothing; bulbs and any other
pairing fall through unchanged. -/
def reactive_step (event : DeviceUpdate) (d : Device) : Device :=
  match d with
  | Device.thermostat s =>
      match event.value with
      | Value.vFloat v =>
          if v > TEMP_THRESHOLD then
            let new_temp := cooled_temp s.current_temp
            let new_temp2 :=
              if new_temp ≥ TEMP_THRESHOLD then TEMP_THRESHOLD - 2 else new_temp
            let s1 := (SmartThermostat.execute_command s "update_temp"
              ⟨none, some new_temp2, none, none, none⟩).2
            let s2 := (SmartThermostat.execute_command s1 "set_target_temp"
              ⟨none, some COOLING_TARGET, none, none, none⟩).2
            Device.thermostat s2
          else d
      | _ => d
  | _ => d

/-- `batch_size = 10` (controller.py line 210). -/
def batch_size : ℕ := 10

/-- The non-blocking drain loop of the collector (controller.py lines 216-221):
`while not update_queue.empty() and len(update_batch) < batch_size: ...
update_batch.append(update_queue.get_nowait())`.  The queue is modelled as the
list of updates currently available; the result is the filled batch buffer and
the updates left in the queue. -/
def collect_loop {α : Type} (bs : ℕ) : List α → List α → List α × List α
  | [], update_batch => (update_batch, [])
  | u :: q, update_batch =>
      if update_batch.length < bs then collect_loop bs q (update_batch ++ [u])
      else (update_batch, u :: q)

/-- The records one consumer-loop iteration processes (controller.py lines
214-261): the batch buffer starts empty (it was cleared at the end of the
previous non-empty iteration), updates are drained with `collect_loop`, and the
whole collected batch — full or not — is then mapped/filtered/stored in the
same iteration whenever it is non-empty. -/
def iteration_processed {α : Type} (queue : List α) : List α :=
  (collect_loop batch_size queue []).1

/-- A persisted log line `{"timestamp": ..., "update": ...}` built by
`storage_worker` (controller.py lines 57-61). -/
structure LogEntry (α : Type) where
  timestamp : ℕ
  update : α
  deriving DecidableEq, Repr

/-- `storage_worker` (controller.py lines 44-68).  The queue contents are the
list of items the worker will dequeue, `none` being the `None` sentinel.
`clock i` is `datetime.now()` at the i-th dequeue and `write_ok i` tells
whether the i-th file append succeeds (an exception inside the `try` body is
caught, logged, and the loop continues with the entry dropped).  Returns the
log lines written and whether the loop terminated via the sentinel `break`;
an exhausted queue (`[]`) means the worker is still blocked in `queue.get()`,
so the flag is `false` there. -/
def storage_worker_run {α : Type} (clock : ℕ → ℕ) (write_ok : ℕ → Bool) :
    ℕ → List (Option α) → List (LogEntry α) × Bool
  | _, [] => ([], false)
  | _, none :: _ => ([], true)
  | i, some u :: rest =>
      let r := storage_worker_run clock write_ok (i + 1) rest
      (if write_ok i then ⟨clock i, u⟩ :: r.1 else r.1, r.2)

/-! ## Spec-side auxiliary definitions

These follow the spec's vocabulary (clamping, float values of a batch, items
before the sentinel) and are compared against the implementation functions
above. -/

/-- The spec's `clamp(v, lo, hi)`. -/
def clamp_int (v lo hi : ℤ) : ℤ := max lo (min hi v)

/-- The float-typed values of a batch, in order — the values the spec says the
average is computed over. -/
def float_values (updates : List DeviceUpdate) : List ℚ :=
  (updates.filter (fun u => u.value.isFloat)).map (fun u => u.value.floatVal)

/-! ## Helper lemmas -/

theorem set_brightness_validated_eq_clamp (b : ℤ) :
    SmartBulb.set_brightness_validated b = clamp_int b 0 100 := by
  unfold SmartBulb.set_brightness_validated clamp_int
  split <;> [skip; split] <;> omega

theorem set_battery_level_validated_eq_clamp (v : ℤ) :
    SmartCamera.set_battery_level_validated v = clamp_int v 0 100 := by
  unfold SmartCamera.set_battery_level_validated clamp_int
  split <;> [skip; split] <;> omega

/-- The cooling formula always lands at or below `COOLING_TARGET`:
`t - max(5, t - 25) ≤ 25`. -/
theorem cooled_temp_le_target (t : ℚ) : cooled_temp t ≤ COOLING_TARGET := by
  unfold cooled_temp cooling_amount COOLING_TARGET
  rcases le_total 5 (t - 25) with h | h
  · rw [max_eq_right h]; linarith
  · rw [max_eq_left h]; linarith

/-- Unfolding of the thermostat branch of `reactive_step` when the event value
is a float above the threshold. -/
theorem reactive_step_thermostat (event : DeviceUpdate) (s : ThermostatState)
    (v : ℚ) (hval : event.value = Value.vFloat v) (hv : v > TEMP_THRESHOLD) :
    reactive_step event (Device.thermostat s) = Device.thermostat
      { s with
        current_temp :=
          if cooled_temp s.current_temp ≥ TEMP_THRESHOLD then TEMP_THRESHOLD - 2
          else cooled_temp s.current_temp,
        target_temp := COOLING_TARGET } := by
  unfold reactive_step
  rw [hval]
  simp only [hv, if_true, if_pos]
  simp [SmartThermostat.execute_command]

/-! ## Claim theorems -/

/-- C1: `filter_critical_events` returns true iff the record's value is a float
greater than 30.0 or an int less than 10; consequently a float ≤ 30.0, an
int ≥ 10 and a null value are never critical, regardless of device type
(the function never looks at anything but `value`). -/
theorem c1_critical_classification (u : DeviceUpdate) :
    filter_critical_events u = true ↔
      (∃ x : ℚ, u.value = Value.vFloat x ∧ x > TEMP_THRESHOLD) ∨
      (∃ n : ℤ, u.value = Value.vInt n ∧ n < 10) := by
  unfold filter_critical_events
  cases h : u.value <;> simp [h]

/-- C5: after `execute_command("set_brightness", brightness=b)` on any bulb the
call returns true, the stored brightness is `clamp(b, 0, 100)`, and if `b > 0`
the bulb is on. -/
theorem c5_set_brightness_clamped (s : BulbState) (b : ℤ) :
    (SmartBulb.execute_command s "set_brightness"
        ⟨some b, none, none, none, none⟩).1 = true ∧
    (SmartBulb.execute_command s "set_brightness"
        ⟨some b, none, none, none, none⟩).2.brightness = clamp_int b 0 100 ∧
    (b > 0 → (SmartBulb.execute_command s "set_brightness"
        ⟨some b, none, none, none, none⟩).2.is_on = true) := by
  simp [SmartBulb.execute_command, set_brightness_validated_eq_clamp]
  split
  · simp
  · next h => simp; exact fun hb => absurd hb h

/-- C5 witness at `b = 250` on a fresh off bulb. -/
theorem c5_set_brightness_clamped_witness :
    (SmartBulb.execute_command ⟨true, false, 0⟩ "set_brightness"
        ⟨some 250, none, none, none, none⟩).2.brightness = clamp_int 250 0 100 ∧
    (SmartBulb.execute_command ⟨true, false, 0⟩ "set_brightness"
        ⟨some 250, none, none, none, none⟩).2.is_on = true :=
  ⟨(c5_set_brightness_clamped ⟨true, false, 0⟩ 250).2.1,
   (c5_set_brightness_clamped ⟨true, false, 0⟩ 250).2.2 (by decide)⟩

/-- C10: for `b ≤ 0`, `set_brightness` stores 0, returns true, and leaves
`is_on` untouched; and no command other than `turn_off` can switch a lit bulb
off (the only assignment `is_on = False` is in the `turn_off` branch). -/
theorem c10_nonpositive_brightness (s : BulbState) (b : ℤ) (hb : b ≤ 0)
    (cmd : String) (kw : Kwargs) (hcmd : cmd ≠ "turn_off") (hon : s.is_on = true) :
    SmartBulb.execute_command s "set_brightness"
        ⟨some b, none, none, none, none⟩ = (true, { s with brightness := 0 }) ∧
    (SmartBulb.execute_command s cmd kw).2.is_on = true := by
  constructor
  · have hcl : clamp_int b 0 100 = 0 := by unfold clamp_int; omega
    have hnot : ¬ b > 0 := by omega
    simp [SmartBulb.execute_command, set_brightness_validated_eq_clamp, hcl, hnot]
  · unfold SmartBulb.execute_command
    by_cases h1 : cmd = "turn_on"
    · simp [h1]
    · by_cases h3 : cmd = "set_brightness"
      · rw [if_neg h1, if_neg hcmd, if_pos h3]
        cases hkb : kw.brightness with
        | none => exact hon
        | some b2 =>
            dsimp only
            split_ifs with h4
            · simp
            · exact hon
      · rw [if_neg h1, if_neg hcmd, if_neg h3]
        exact hon

/-- C10 witness: a lit bulb at brightness 80 receiving `set_brightness(-5)`. -/
theorem c10_nonpositive_brightness_witness :
    SmartBulb.execute_command ⟨true, true, 80⟩ "set_brightness"
        ⟨some (-5), none, none, none, none⟩ = (true, ⟨true, true, 0⟩) ∧
    (SmartBulb.execute_command ⟨true, true, 80⟩ "set_brightness"
        ⟨some (-5), none, none, none, none⟩).2.is_on = true :=
  c10_nonpositive_brightness ⟨true, true, 80⟩ (-5) (by decide) "set_brightness"
    ⟨some (-5), none, none, none, none⟩ (by decide) rfl

/-- C2: for a critical float-valued record matched to a thermostat whose
current temperature exceeds 30.0, the reactive controller stores
`current_temp - max(5.0, current_temp - 25.0)` as the new current temperature
(forced to 28.0 if that result were still ≥ 30.0) and then sets the target
temperature to 25.0. -/
theorem c2_reactive_cooling (event : DeviceUpdate) (s : ThermostatState) (v : ℚ)
    (hval : event.value = Value.vFloat v)
    (hcrit : filter_critical_events event = true)
    (_htemp : s.current_temp > TEMP_THRESHOLD) :
    reactive_step event (Device.thermostat s) = Device.thermostat
      { s with
        current_temp :=
          if cooled_temp s.current_temp ≥ TEMP_THRESHOLD then TEMP_THRESHOLD - 2
          else cooled_temp s.current_temp,
        target_temp := COOLING_TARGET } := by
  have hv : v > TEMP_THRESHOLD := by
    unfold filter_critical_events at hcrit
    rw [hval] at hcrit
    simpa using hcrit
  exact reactive_step_thermostat event s v hval hv

/-- C2 witness: the spec's worked example — a thermostat at 35.0°C receiving a
critical 35.0 reading ends at `current_temp = 25.0`, `target_temp = 25.0`. -/
theorem c2_reactive_cooling_witness :
    reactive_step ⟨"thermo_01", "t0", Value.vFloat 35⟩
        (Device.thermostat ⟨true, 35, 24, 50⟩)
      = Device.thermostat ⟨true, 25, 25, 50⟩ := by
  have h := c2_reactive_cooling ⟨"thermo_01", "t0", Value.vFloat 35⟩
    ⟨true, 35, 24, 50⟩ 35 rfl (by decide) (by norm_num [TEMP_THRESHOLD])
  rw [h]
  norm_num [cooled_temp, cooling_amount, TEMP_THRESHOLD, COOLING_TARGET]

/-- C4: the cooling formula undercuts the threshold for every real input —
`t - max(5, t - 25) ≤ 25 < 30` — so the defensive override branch
(`if new_temp >= TEMP_THRESHOLD: new_temp = 28.0`) is unreachable: whenever the
cooling branch fires, the stored temperature is exactly `cooled_temp`, with the
forcing never applied. -/
theorem c4_override_unreachable :
    (∀ t : ℚ, cooled_temp t ≤ COOLING_TARGET ∧ ¬ cooled_temp t ≥ TEMP_THRESHOLD) ∧
    (∀ (event : DeviceUpdate) (s : ThermostatState) (v : ℚ),
      event.value = Value.vFloat v → v > TEMP_THRESHOLD →
      reactive_step event (Device.thermostat s) = Device.thermostat
        { s with current_temp := cooled_temp s.current_temp,
                 target_temp := COOLING_TARGET }) := by
  have hle : ∀ t : ℚ, cooled_temp t ≤ COOLING_TARGET := cooled_temp_le_target
  have hlt : ∀ t : ℚ, ¬ cooled_temp t ≥ TEMP_THRESHOLD := by
    intro t
    have := hle t
    unfold COOLING_TARGET at this
    unfold TEMP_THRESHOLD
    linarith
  refine ⟨fun t => ⟨hle t, hlt t⟩, fun event s v hval hv => ?_⟩
  rw [reactive_step_thermostat event s v hval hv, if_neg (hlt s.current_temp)]

/-- C4 witness: the spec's extreme-spike example `current_temp = 100.0` still
lands at 25.0 with no override. -/
theorem c4_override_unreachable_witness :
    reactive_step ⟨"thermo_02", "t1", Value.vFloat 100⟩
        (Device.thermostat ⟨true, 100, 24, 50⟩)
      = Device.thermostat ⟨true, 25, 25, 50⟩ ∧
    cooled_temp 100 ≤ COOLING_TARGET := by
  constructor
  · have h := c4_override_unreachable.2 ⟨"thermo_02", "t1", Value.vFloat 100⟩
      ⟨true, 100, 24, 50⟩ 100 rfl (by norm_num [TEMP_THRESHOLD])
    rw [h]
    norm_num [cooled_temp, cooling_amount, COOLING_TARGET]
  · exact (c4_override_unreachable.1 100).1

/-- The invocations `SmartBulb.execute_command` rejects: a command name outside
its three branches, or `set_brightness` without a `brightness` argument
(devices.py lines 129-144). -/
def bulb_invalid (command : String) (kw : Kwargs) : Bool :=
  if command = "turn_on" then false
  else if command = "turn_off" then false
  else if command = "set_brightness" then kw.brightness.isNone
  else true

/-- The invocations `SmartThermostat.execute_command` rejects
(devices.py lines 199-214). -/
def thermostat_invalid (command : String) (kw : Kwargs) : Bool :=
  if command = "set_target_temp" then kw.temperature.isNone
  else if command = "update_temp" then kw.temperature.isNone
  else if command = "update_humidity" then kw.humidity.isNone
  else true

/-- The invocations `SmartCamera.execute_command` rejects
(devices.py lines 282-295). -/
def camera_invalid (command : String) (kw : Kwargs) : Bool :=
  if command = "take_snapshot" then false
  else if command = "set_motion_detected" then kw.motion.isNone
  else if command = "set_battery_level" then kw.battery_level.isNone
  else true

/-- Unknown command, or known command with its required argument missing, for
the given device. -/
def device_invalid (d : Device) (command : String) (kw : Kwargs) : Bool :=
  match d with
  | .bulb _ => bulb_invalid command kw
  | .thermostat _ => thermostat_invalid command kw
  | .camera _ => camera_invalid command kw

/-- Rejected bulb invocations leave the state unchanged and return false. -/
theorem bulb_invalid_noop (s : BulbState) (command : String) (kw : Kwargs)
    (h : bulb_invalid command kw = true) :
    SmartBulb.execute_command s command kw = (false, s) := by
  unfold bulb_invalid at h
  unfold SmartBulb.execute_command
  by_cases h1 : command = "turn_on"
  · rw [if_pos h1] at h; cases h
  · rw [if_neg h1] at h
    by_cases h2 : command = "turn_off"
    · rw [if_pos h2] at h; cases h
    · rw [if_neg h2] at h
      by_cases h3 : command = "set_brightness"
      · rw [if_pos h3] at h
        rw [Option.isNone_iff_eq_none] at h
        rw [if_neg h1, if_neg h2, if_pos h3, h]
      · rw [if_neg h1, if_neg h2, if_neg h3]

/-- Rejected thermostat invocations leave the state unchanged and return
false. -/
theorem thermostat_invalid_noop (s : ThermostatState) (command : String)
    (kw : Kwargs) (h : thermostat_invalid command kw = true) :
    SmartThermostat.execute_command s command kw = (false, s) := by
  unfold thermostat_invalid at h
  unfold SmartThermostat.execute_command
  by_cases h1 : command = "set_target_temp"
  · rw [if_pos h1] at h
    rw [Option.isNone_iff_eq_none] at h
    rw [if_pos h1, h]
  · rw [if_neg h1] at h
    by_cases h2 : command = "update_temp"
    · rw [if_pos h2] at h
      rw [Option.isNone_iff_eq_none] at h
      rw [if_neg h1, if_pos h2, h]
    · rw [if_neg h2] at h
      by_cases h3 : command = "update_humidity"
      · rw [if_pos h3] at h
        rw [Option.isNone_iff_eq_none] at h
        rw [if_neg h1, if_neg h2, if_pos h3, h]
      · rw [if_neg h1, if_neg h2, if_neg h3]

/-- Rejected camera invocations leave the state unchanged and return false. -/
theorem camera_invalid_noop (now : ℕ) (s : CameraState) (command : String)
    (kw : Kwargs) (h : camera_invalid command kw = true) :
    SmartCamera.execute_command now s command kw = (false, s) := by
  unfold camera_invalid at h
  unfold SmartCamera.execute_command
  by_cases h1 : command = "take_snapshot"
  · rw [if_pos h1] at h; cases h
  · rw [if_neg h1] at h
    by_cases h2 : command = "set_motion_detected"
    · rw [if_pos h2] at h
      rw [Option.isNone_iff_eq_none] at h
      rw [if_neg h1, if_pos h2, h]
    · rw [if_neg h2] at h
      by_cases h3 : command = "set_battery_level"
      · rw [if_pos h3] at h
        rw [Option.isNone_iff_eq_none] at h
        rw [if_neg h1, if_neg h2, if_pos h3, h]
      · rw [if_neg h1, if_neg h2, if_neg h3]

/-- C6: for every device, an unknown command or a known command with its
required argument missing makes `execute_command` return false with the device
state completely unchanged.  The embedding is a total function, so the call
also cannot raise. -/
theorem c6_invalid_invocation_is_noop (now : ℕ) (d : Device) (command : String)
    (kw : Kwargs) (h : device_invalid d command kw = true) :
    Device.execute_command now d command kw = (false, d) := by
  cases d with
  | bulb s =>
      simp only [device_invalid] at h
      simp only [Device.execute_command, bulb_invalid_noop s command kw h]
  | thermostat s =>
      simp only [device_invalid] at h
      simp only [Device.execute_command, thermostat_invalid_noop s command kw h]
  | camera s =>
      simp only [device_invalid] at h
      simp only [Device.execute_command, camera_invalid_noop now s command kw h]

/-- C6 witness: an unknown command on a bulb, and `set_brightness` with no
argument, are both rejected without touching the state. -/
theorem c6_invalid_invocation_is_noop_witness :
    Device.execute_command 0 (Device.bulb ⟨true, true, 40⟩) "explode" Kwargs.empty
      = (false, Device.bulb ⟨true, true, 40⟩) ∧
    Device.execute_command 0 (Device.bulb ⟨true, true, 40⟩) "set_brightness"
        Kwargs.empty
      = (false, Device.bulb ⟨true, true, 40⟩) :=
  ⟨c6_invalid_invocation_is_noop 0 (Device.bulb ⟨true, true, 40⟩) "explode"
      Kwargs.empty (by decide),
   c6_invalid_invocation_is_noop 0 (Device.bulb ⟨true, true, 40⟩) "set_brightness"
      Kwargs.empty (by decide)⟩

/-- The clamped-range invariant the data model states for the integer-valued
fields the command surface actually validates: bulb brightness and camera
battery level in [0, 100].  (Thermostat humidity carries no such guarantee at
the `execute_command` level — see the C3 counterexample.) -/
def device_ranges_inv (d : Device) : Prop :=
  match d with
  | .bulb s => 0 ≤ s.brightness ∧ s.brightness ≤ 100
  | .thermostat _ => True
  | .camera s => 0 ≤ s.battery_level ∧ s.battery_level ≤ 100

theorem set_brightness_validated_range (v : ℤ) :
    0 ≤ SmartBulb.set_brightness_validated v ∧
      SmartBulb.set_brightness_validated v ≤ 100 := by
  unfold SmartBulb.set_brightness_validated
  split <;> [skip; split] <;> omega

theorem set_battery_level_validated_range (v : ℤ) :
    0 ≤ SmartCamera.set_battery_level_validated v ∧
      SmartCamera.set_battery_level_validated v ≤ 100 := by
  unfold SmartCamera.set_battery_level_validated
  split <;> [skip; split] <;> omega

/-- C3 counterexample: `execute_command("update_humidity", humidity=150.0)` on
a thermostat stores 150.0 verbatim — the humidity argument is NOT
clamp-validated by the command surface (devices.py lines 209-213 assign
`kwargs["humidity"]` unconditionally), so the claimed post-mutation range
0 ≤ humidity ≤ 100 fails. -/
theorem c3_humidity_not_clamped_counterexample :
    (SmartThermostat.execute_command ⟨true, 20, 20, 50⟩ "update_humidity"
        ⟨none, none, some 150, none, none⟩).2.humidity = 150 ∧
    ¬ ((SmartThermostat.execute_command ⟨true, 20, 20, 50⟩ "update_humidity"
        ⟨none, none, some 150, none, none⟩).2.humidity ≤ 100) := by
  constructor
  · simp [SmartThermostat.execute_command]
  · simp [SmartThermostat.execute_command]
    norm_num

/-- C3 amended: after any mutation through `execute_command`, every bulb's
brightness and every camera's battery level remain within [0, 100]; thermostat
humidity, by contrast, is stored unconditionally by `update_humidity` (the
update producer clamps before calling, but the command surface itself does not
validate it). -/
theorem c3_clamped_ranges_amended (now : ℕ) (d : Device) (command : String)
    (kw : Kwargs) (hinv : device_ranges_inv d) :
    device_ranges_inv (Device.execute_command now d command kw).2 ∧
    (∀ (s : ThermostatState) (x : ℚ),
      (SmartThermostat.execute_command s "update_humidity"
          ⟨none, none, some x, none, none⟩).2.humidity = x) := by
  constructor
  · cases d with
    | bulb s =>
        simp only [Device.execute_command, SmartBulb.execute_command]
        split
        · simpa [device_ranges_inv] using hinv
        · split
          · simp [device_ranges_inv]
          · split
            · cases hkb : kw.brightness with
              | none => simpa [device_ranges_inv] using hinv
              | some b =>
                  dsimp only [device_ranges_inv]
                  split <;> exact set_brightness_validated_range b
            · simpa [device_ranges_inv] using hinv
    | thermostat s =>
        simp [device_ranges_inv, Device.execute_command]
    | camera s =>
        simp only [Device.execute_command, SmartCamera.execute_command]
        split
        · simpa [device_ranges_inv] using hinv
        · split
          · cases hkm : kw.motion with
            | none => simpa [device_ranges_inv] using hinv
            | some m => simpa [device_ranges_inv] using hinv
          · split
            · cases hkb : kw.battery_level with
              | none => simpa [device_ranges_inv] using hinv
              | some v =>
                  dsimp only [device_ranges_inv]
                  exact set_battery_level_validated_range v
            · simpa [device_ranges_inv] using hinv
  · intro s x
    simp [SmartThermostat.execute_command]

/-- C3 amended witness: an over-range `set_brightness(500)` keeps the bulb in
range, and `update_humidity(75.0)` stores exactly 75.0. -/
theorem c3_clamped_ranges_amended_witness :
    device_ranges_inv (Device.execute_command 0 (Device.bulb ⟨true, false, 50⟩)
        "set_brightness" ⟨some 500, none, none, none, none⟩).2 ∧
    (SmartThermostat.execute_command ⟨true, 20, 20, 50⟩ "update_humidity"
        ⟨none, none, some 75, none, none⟩).2.humidity = 75 :=
  ⟨(c3_clamped_ranges_amended 0 (Device.bulb ⟨true, false, 50⟩) "set_brightness"
      ⟨some 500, none, none, none, none⟩ (by norm_num [device_ranges_inv])).1,
   (c3_clamped_ranges_amended 0 (Device.bulb ⟨true, false, 50⟩) "set_brightness"
      ⟨some 500, none, none, none, none⟩ (by norm_num [device_ranges_inv])).2
      ⟨true, 20, 20, 50⟩ 75⟩

/-- The `reduce` accumulator of `calculate_average_temperature` computes the
pair (count of records folded, running total of their float values). -/
theorem avg_fold_eq (l : List DeviceUpdate) : ∀ (n : ℕ) (t : ℚ),
    l.foldl (fun acc u => (acc.1 + 1, acc.2 + u.value.floatVal)) (n, t)
      = (n + l.length, t + (l.map (fun u => u.value.floatVal)).sum) := by
  induction l with
  | nil => intro n t; simp
  | cons u rest ih =>
      intro n t
      simp only [List.foldl_cons, ih, List.length_cons, List.map_cons,
        List.sum_cons, Prod.mk.injEq]
      exact ⟨by omega, by ring⟩

/-- C7: `calculate_average_temperature` returns the arithmetic mean of exactly
the float-typed values of the batch (integer and null values ignored), 0.0 when
the batch has no float values; on the spec's example batch — floats
[20.0, 30.0, 40.0] plus one integer — it returns 30.0. -/
theorem c7_average_temperature (updates : List DeviceUpdate) :
    calculate_average_temperature updates =
      (if float_values updates = [] then 0
       else (float_values updates).sum / ((float_values updates).length : ℚ)) ∧
    calculate_average_temperature
      [⟨"t1", "ts", Value.vFloat 20⟩, ⟨"t2", "ts", Value.vFloat 30⟩,
       ⟨"t3", "ts", Value.vFloat 40⟩, ⟨"c1", "ts", Value.vInt 85⟩] = 30 := by
  constructor
  · simp only [calculate_average_temperature, float_values]
    by_cases hE : (updates.filter (fun u => u.value.isFloat)).isEmpty
    · have hnil : updates.filter (fun u => u.value.isFloat) = [] :=
        List.isEmpty_iff.mp hE
      simp [hnil]
    · have hne : updates.filter (fun u => u.value.isFloat) ≠ [] := fun hc =>
        hE (by simp [hc])
      have hlen : 0 < (updates.filter (fun u => u.value.isFloat)).length :=
        List.length_pos.mpr hne
      have hmap : (updates.filter (fun u => u.value.isFloat)).map
          (fun u => u.value.floatVal) ≠ [] := fun hc =>
        hne (List.map_eq_nil_iff.mp hc)
      rw [if_neg hE, avg_fold_eq, if_neg hmap]
      simp only [Nat.zero_add, zero_add, List.length_map]
      rw [if_pos hlen]
  · simp [calculate_average_temperature, Value.isFloat, Value.floatVal,
      List.filter]
    norm_num

/-- The drain loop never grows the batch buffer beyond the batch size. -/
theorem collect_loop_length_le {α : Type} (bs : ℕ) (q : List α) :
    ∀ b : List α, b.length ≤ bs → ((collect_loop bs q b).1).length ≤ bs := by
  induction q with
  | nil => intro b hb; simpa [collect_loop] using hb
  | cons u rest ih =>
      intro b hb
      simp only [collect_loop]
      split
      · next h =>
          exact ih (b ++ [u])
            (by simp only [List.length_append, List.length_cons,
              List.length_nil]; omega)
      · simpa using hb

/-- When everything available fits in one batch, the drain loop takes it all. -/
theorem collect_loop_all {α : Type} (bs : ℕ) (q : List α) :
    ∀ b : List α, b.length + q.length ≤ bs → collect_loop bs q b = (b ++ q, []) := by
  induction q with
  | nil => intro b _; simp [collect_loop]
  | cons u rest ih =>
      intro b hb
      simp only [List.length_cons] at hb
      simp only [collect_loop]
      have hlt : b.length < bs := by omega
      have hb2 : (b ++ [u]).length + rest.length ≤ bs := by
        simp only [List.length_append, List.length_cons, List.length_nil]
        omega
      rw [if_pos hlt, ih (b ++ [u]) hb2]
      simp

/-- C8: one consumer-loop iteration never collects more than `batch_size = 10`
records however many are queued, and when fewer than 10 are available the whole
queue content is collected and processed in that same iteration (no waiting for
a full batch). -/
theorem c8_batch_bounded {α : Type} (queue : List α) :
    ((collect_loop batch_size queue []).1).length ≤ batch_size ∧
    (queue.length < batch_size → iteration_processed queue = queue) := by
  constructor
  · exact collect_loop_length_le batch_size queue [] (by simp)
  · intro h
    unfold iteration_processed
    rw [collect_loop_all batch_size queue [] (by simp; omega)]
    simp

/-- C8 witness: a queue of 25 stays capped at 10; a queue of 3 is processed
whole in the same iteration. -/
theorem c8_batch_bounded_witness :
    ((collect_loop batch_size (List.range 25) []).1).length ≤ batch_size ∧
    iteration_processed ([7, 8, 9] : List ℕ) = [7, 8, 9] :=
  ⟨(c8_batch_bounded (List.range 25)).1,
   (c8_batch_bounded [7, 8, 9]).2 (by decide)⟩

/-- The updates dequeued before the first `None` sentinel — the ones the
storage worker attempts to persist. -/
def pending_items {α : Type} : List (Option α) → List α
  | [] => []
  | none :: _ => []
  | some u :: rest => u :: pending_items rest

/-- Spec-side description of the worker's output: each pre-sentinel item,
wrapped as `{timestamp, update}` with its dequeue-time timestamp, kept exactly
when its write succeeds and silently dropped otherwise. -/
def expected_log_entries {α : Type} (clock : ℕ → ℕ) (write_ok : ℕ → Bool)
    (i : ℕ) (l : List α) : List (LogEntry α) :=
  ((List.range' i l.length).zip l).filterMap
    (fun p => if write_ok p.1 then some ⟨clock p.1, p.2⟩ else none)

theorem storage_worker_run_log {α : Type} (clock : ℕ → ℕ) (write_ok : ℕ → Bool) :
    ∀ (items : List (Option α)) (i : ℕ),
      (storage_worker_run clock write_ok i items).1
        = expected_log_entries clock write_ok i (pending_items items) := by
  intro items
  induction items with
  | nil => intro i; simp [storage_worker_run, pending_items, expected_log_entries]
  | cons o rest ih =>
      intro i
      cases o with
      | none => simp [storage_worker_run, pending_items, expected_log_entries]
      | some u =>
          simp only [storage_worker_run, pending_items]
          rw [ih (i + 1)]
          unfold expected_log_entries
          simp only [List.length_cons, List.range'_succ, List.zip_cons_cons,
            List.filterMap_cons]
          split <;> simp_all

theorem storage_worker_run_halts {α : Type} (clock : ℕ → ℕ)
    (write_ok : ℕ → Bool) : ∀ (items : List (Option α)) (i : ℕ),
      ((storage_worker_run clock write_ok i items).2 = true ↔ none ∈ items) := by
  intro items
  induction items with
  | nil => intro i; simp [storage_worker_run]
  | cons o rest ih =>
      intro i
      cases o with
      | none => simp [storage_worker_run]
      | some u => simp [storage_worker_run, ih (i + 1)]

/-- C9: the storage worker's loop breaks exactly when it dequeues the `None`
sentinel (an empty queue leaves it blocked, not terminated); every non-sentinel
item dequeued before the sentinel is wrapped as `{timestamp, update}` and
appended iff its write succeeds; a failed write is dropped — no retry — and the
loop keeps consuming subsequent items. -/
theorem c9_storage_worker {α : Type} (clock : ℕ → ℕ) (write_ok : ℕ → Bool)
    (items : List (Option α)) :
    ((storage_worker_run clock write_ok 0 items).2 = true ↔ none ∈ items) ∧
    (storage_worker_run clock write_ok 0 items).1
      = expected_log_entries clock write_ok 0 (pending_items items) :=
  ⟨storage_worker_run_halts clock write_ok items 0,
   storage_worker_run_log clock write_ok items 0⟩

end IoT
